import Mathlib

/-!
Shallow embedding of the tf.contrib.learn `BaseEstimator`/`Estimator`
orchestration layer (estimator.py) and the pandas data adapter
(pandas_io.py), together with proofs of the behavioural claims about them.

External collaborators (the tensor engine, the checkpoint store, the data
feeder, the `tensor_signature` module, `_make_metrics_ops` internals) are
modelled as parameters or opaque-looking markers; the control flow, the
validation order and every raised error of the embedded functions follow
the Python source line by line.
-/

namespace TFLearn

/-- Errors raised synchronously by the estimator layer.
`valueError` models Python `ValueError`, `notFittedError` models
`NotFittedError` (carrying the model directory in the message). -/
inductive Err where
  | valueError (msg : String)
  | notFittedError (modelDir : String)
deriving DecidableEq, Repr

/-- `ModeKeys` from estimator.py: TRAIN / EVAL / INFER. -/
inductive ModeKeys where
  | train
  | eval
  | infer
deriving DecidableEq, Repr

/-- A tensor shape as in `tensor_shape.TensorShape`: `none` is unknown rank,
otherwise a list of dimensions, each possibly unknown. -/
abbrev TShape := Option (List (Option Nat))

/-- `TensorShape.num_elements()`: the product of the dimensions when the
shape is fully defined, `none` (Python `None`) otherwise. -/
def numElements : TShape → Option Nat
  | none => none
  | some dims =>
    dims.foldr
      (fun d acc =>
        match d, acc with
        | some n, some m => some (n * m)
        | _, _ => none)
      (some 1)

/-- `shape.is_compatible_with(tensor_shape.scalar())`: true iff the rank is
unknown or zero (the scalar shape has rank 0 and no dimensions). -/
def isCompatibleWithScalar : TShape → Bool
  | none => true
  | some [] => true
  | some (_ :: _) => false

/-- A tensor, reduced to what the estimator layer inspects: its static
shape and an identity (`uid`) distinguishing distinct graph values. -/
structure Tensor where
  shape : TShape
  uid : Nat
deriving DecidableEq, Repr

/-- Result of `_get_input_fn`: either the user's `(input_fn, feed_fn)` pair
passed through, or a data feeder built by `setup_train_data_feeder` from the
raw arrays (recorded by its construction arguments; the feeder itself is an
external collaborator). -/
inductive InputRes (XV F FF : Type) where
  | fromFn (f : F) (feed : Option FF)
  | dataFeeder (x : XV) (y : Option XV) (batch_size : Option Nat)
      (shuffle : Bool) (epochs : Option Nat)
deriving DecidableEq, Repr

/-- `_get_input_fn(x, y, input_fn, feed_fn, batch_size, shuffle, epochs)`.
`isTensor` models `contrib_framework.is_tensor` on the raw array arguments. -/
def get_input_fn {XV F FF : Type} (isTensor : XV → Bool)
    (x y : Option XV) (input_fn : Option F) (feed_fn : Option FF)
    (batch_size : Option Nat) (shuffle : Bool) (epochs : Option Nat) :
    Except Err (InputRes XV F FF) :=
  match input_fn with
  | none =>
    match x with
    | none => Except.error (Err.valueError "Either x or input_fn must be provided.")
    | some xv =>
      if isTensor xv || (match y with | some yv => isTensor yv | none => false) then
        Except.error (Err.valueError "Inputs cannot be tensors. Please provide input_fn.")
      else if feed_fn.isSome then
        Except.error (Err.valueError "Can not provide both feed_fn and x or y.")
      else
        Except.ok (InputRes.dataFeeder xv y batch_size shuffle epochs)
  | some f =>
    if x.isSome || y.isSome then
      Except.error (Err.valueError "Can not provide both input_fn and x or y.")
    else if batch_size.isSome then
      Except.error (Err.valueError "Can not provide both input_fn and batch_size.")
    else
      Except.ok (InputRes.fromFn f feed_fn)

/-- Whether a call outcome is a raised `ValueError`. -/
def isValueError {α : Type} : Except Err α → Bool
  | Except.error (Err.valueError _) => true
  | _ => false

/-- Whether a call outcome is a raised `NotFittedError`. -/
def isNotFitted {α : Type} : Except Err α → Bool
  | Except.error (Err.notFittedError _) => true
  | _ => false

/-! ## The run configuration and the signature checker -/

/-- The slice of the run configuration the embedded code inspects:
`execution_mode` is `none` when the attribute is absent (`hasattr` false),
`some m` when the legacy configuration carries the attribute. -/
structure Config where
  execution_mode : Option String
deriving DecidableEq, Repr

/-- The two `TensorSignature` slots of a `BaseEstimator`
(`_features_info` / `_targets_info`), each `none` until first established. -/
structure SigState (S : Type) where
  features_info : Option S
  targets_info : Option S
deriving DecidableEq, Repr

/-- The targets half of `BaseEstimator._check_inputs` (lines 617-627),
reached only when the features half did not raise: with `targets=None`
nothing happens; against an established targets signature an incompatible
batch raises; otherwise the first targets signature is recorded. -/
def check_inputs_targets {T S : Type} (compatible : T → S → Bool)
    (create : T → S) (st : SigState S) (targets : Option T) :
    Except Err (SigState S) :=
  match targets with
  | none => Except.ok st
  | some t =>
    match st.targets_info with
    | some info =>
      if compatible t info then Except.ok st
      else Except.error
        (Err.valueError "Targets are incompatible with given information.")
    | none => Except.ok { st with targets_info := some (create t) }

/-- `BaseEstimator._check_inputs(features, targets)` (lines 606-627).
`compatible` models `tensor_signature.tensors_compatible` and `create`
models `tensor_signature.create_signatures` (both live in the external
`tensor_signature` module).  Returns the updated signature state, or the
`ValueError` the source raises on a mismatch. -/
def check_inputs {T S : Type} (compatible : T → S → Bool) (create : T → S)
    (st : SigState S) (features : T) (targets : Option T) :
    Except Err (SigState S) :=
  match st.features_info with
  | some info =>
    if compatible features info then
      check_inputs_targets compatible create st targets
    else Except.error
      (Err.valueError "Features are incompatible with given information.")
  | none =>
    check_inputs_targets compatible create
      { st with features_info := some (create features) } targets

/-- A sequence of calls through `_check_inputs` on one estimator instance
(each `fit`/`evaluate` call validates one `(features, targets)` batch);
stops at the first raised error. -/
def run_check_inputs {T S : Type} (compatible : T → S → Bool) (create : T → S) :
    SigState S → List (T × Option T) → Except Err (SigState S)
  | st, [] => Except.ok st
  | st, (f, t) :: rest =>
    match check_inputs compatible create st f t with
    | Except.error e => Except.error e
    | Except.ok st1 => run_check_inputs compatible create st1 rest

/-! ## Model-function arity introspection and dispatch -/

/-- A Python callable as `_get_arguments` discriminates it: a regular
function carrying its argument-name list (`__code__`/`getargspec`), a
callable object (inspected through its call method), or a
`functools` partial application (inspected through its wrapped function). -/
inductive PyFunc where
  | regular (args : List String)
  | callableObj (callMethod : PyFunc)
  | wrapped (func : PyFunc)
deriving DecidableEq, Repr

/-- `_get_arguments(func)`: the declared argument names of the callable. -/
def get_arguments : PyFunc → List String
  | PyFunc.regular args => args
  | PyFunc.callableObj c => get_arguments c
  | PyFunc.wrapped f => get_arguments f

/-- How `Estimator._call_model_fn` invokes the user model function:
with `(features, targets)`, additionally with `mode=mode`, or additionally
with `mode=mode, params=self.params`. -/
inductive CallForm where
  | withFeaturesTargets
  | withMode
  | withModeParams
deriving DecidableEq, Repr

/-- The dispatch of `Estimator._call_model_fn` (lines 950-959): it tests
membership of the names `mode` and `params` in the declared argument list. -/
def dispatch_form (model_fn_args : List String) : CallForm :=
  if "mode" ∈ model_fn_args then
    if "params" ∈ model_fn_args then CallForm.withModeParams
    else CallForm.withMode
  else CallForm.withFeaturesTargets

/-! ## Validation of the model function's returned triple -/

/-- The `train_op` returned by a model function: already an
`ops.Operation`, or a tensor-like value that must be coerced. -/
inductive TrainOpArg where
  | operation (uid : Nat)
  | tensorLike (uid : Nat)
deriving DecidableEq, Repr

/-- `convert_to_tensor(train_op).op` applied when the returned value is not
already an `Operation`. -/
def coerce_train_op : TrainOpArg → TrainOpArg
  | TrainOpArg.operation u => TrainOpArg.operation u
  | TrainOpArg.tensorLike u => TrainOpArg.operation u

/-- Model-function predictions: a single tensor-like value or a mapping of
named outputs. -/
inductive Predictions (V : Type) where
  | single (v : V)
  | dict (kvs : List (String × V))
deriving DecidableEq, Repr

/-- The `# Validate train_op.` block of `_call_model_fn`. -/
def validate_train_op (mode : ModeKeys) :
    Option TrainOpArg → Except Err (Option TrainOpArg)
  | none =>
    if mode = ModeKeys.train then
      Except.error (Err.valueError "Missing train_op.")
    else Except.ok none
  | some t => Except.ok (some (coerce_train_op t))

/-- The `# Validate loss.` block of `_call_model_fn`: a missing loss is
fatal in TRAIN/EVAL mode; a present loss whose shape has a known element
count other than one is fatal; a present loss not already compatible with
the scalar shape is reshaped to `[]`. -/
def validate_loss (mode : ModeKeys) :
    Option Tensor → Except Err (Option Tensor)
  | none =>
    if mode = ModeKeys.train ∨ mode = ModeKeys.eval then
      Except.error (Err.valueError "Missing loss.")
    else Except.ok none
  | some l =>
    match numElements l.shape with
    | some n =>
      if n ≠ 1 then Except.error (Err.valueError "Loss must be scalar.")
      else if isCompatibleWithScalar l.shape then Except.ok (some l)
      else Except.ok (some { l with shape := some [] })
    | none =>
      if isCompatibleWithScalar l.shape then Except.ok (some l)
      else Except.ok (some { l with shape := some [] })

/-- The `# Validate predictions.` block of `_call_model_fn`: missing
predictions are fatal in INFER mode; present predictions are normalized by
`convert_to_tensor_or_sparse_tensor` (identity on our tensor model). -/
def validate_predictions (mode : ModeKeys) :
    Option (Predictions Tensor) → Except Err (Option (Predictions Tensor))
  | none =>
    if mode = ModeKeys.infer then
      Except.error (Err.valueError "Missing predictions.")
    else Except.ok none
  | some p => Except.ok (some p)

/-- The validation half of `Estimator._call_model_fn` (lines 961-994),
applied in source order to the triple returned by the user model function. -/
def validate_model_fn_result (mode : ModeKeys)
    (predictions : Option (Predictions Tensor)) (loss : Option Tensor)
    (train_op : Option TrainOpArg) :
    Except Err (Option (Predictions Tensor) × Option Tensor × Option TrainOpArg) :=
  match validate_train_op mode train_op with
  | Except.error e => Except.error e
  | Except.ok top =>
    match validate_loss mode loss with
    | Except.error e => Except.error e
    | Except.ok l =>
      match validate_predictions mode predictions with
      | Except.error e => Except.error e
      | Except.ok p => Except.ok (p, l, top)

/-- `Estimator._call_model_fn` in full: the user model function (already
composed with the feature-engineering hook) is represented by its result
under each possible call form; the argument-name list decides the form and
the returned triple is then validated. -/
def call_model_fn (model_fn : PyFunc)
    (modelResult : CallForm →
      Option (Predictions Tensor) × Option Tensor × Option TrainOpArg)
    (mode : ModeKeys) :
    Except Err (Option (Predictions Tensor) × Option Tensor × Option TrainOpArg) :=
  let r := modelResult (dispatch_form (get_arguments model_fn))
  validate_model_fn_result mode r.1 r.2.1 r.2.2

/-! ## The evaluation metrics dictionary -/

/-- A value of the evaluation-ops mapping: either the streaming-mean metric
the estimator adds itself (`metrics_lib.streaming_mean(value)`), or an
entry produced by the user's metric specification in `_make_metrics_ops`. -/
inductive MetricVal (T : Type) where
  | streamingMean (t : T)
  | userMetric (uid : Nat)
deriving DecidableEq, Repr

/-- The `result` dict of `_get_eval_ops`, in insertion order (Python dicts
of this era preserve no duplicate keys; entries are only ever appended). -/
abbrev MetricsDict (T : Type) := List (String × MetricVal T)

/-- Python `key in dict`. -/
def dcontains {α : Type} (k : String) : List (String × α) → Bool
  | [] => false
  | kv :: rest => kv.1 == k || dcontains k rest

/-- Python `dict[key]` as an optional lookup. -/
def dlookup {α : Type} (k : String) : List (String × α) → Option α
  | [] => none
  | kv :: rest => if kv.1 == k then some kv.2 else dlookup k rest

/-- `_maybe_add_streaming_mean(result, key, value)`: when `key` is already
present the dict is returned untouched (the collision is logged and
skipped); otherwise `streaming_mean(value)` is inserted under `key`. -/
def maybe_add_streaming_mean {T : Type} (result : MetricsDict T)
    (key : String) (value : T) : MetricsDict T :=
  if dcontains key result then result
  else result ++ [(key, MetricVal.streamingMean value)]

/-- The tail of `Estimator._get_eval_ops` (lines 1043-1055): starting from
the dict produced by `_make_metrics_ops` on the user metrics
(`user_result`), a streaming mean of the loss is added under `loss`, then
one per named prediction (or under `predictions` for a single un-named
prediction) — each through `_maybe_add_streaming_mean`. -/
def get_eval_ops (user_result : MetricsDict Tensor) (loss : Tensor)
    (predictions : Option (Predictions Tensor)) : MetricsDict Tensor :=
  let result := maybe_add_streaming_mean user_result "loss" loss
  match predictions with
  | none => result
  | some (Predictions.dict kvs) =>
    kvs.foldl (fun r kv => maybe_add_streaming_mean r kv.1 kv.2) result
  | some (Predictions.single p) =>
    maybe_add_streaming_mean result "predictions" p

/-! ## evaluate and its model-evaluation core -/

/-- The `metrics` argument of `evaluate`: a dict of metric specifications,
or any non-dict value (which the source rejects). -/
inductive MetricsArg where
  | dict (uid : Nat)
  | nonDict (uid : Nat)
deriving DecidableEq, Repr

/-- `BaseEstimator._evaluate_model` (lines 739-777): the legacy
execution-mode guard returns `(None, None)` for processes whose role
excludes evaluation; otherwise a missing checkpoint under `model_dir`
raises `NotFittedError`; otherwise the fresh graph is built and the
evaluation loop is delegated to the engine, abstracted as `runEval`
returning the metric results and the global step. -/
def evaluate_model {R : Type} (cfg : Config) (latest : Option String)
    (model_dir : String) (runEval : Unit → R × Nat) :
    Except Err (Option (R × Nat)) :=
  let restricted : Bool :=
    match cfg.execution_mode with
    | some m => !(m == "all" || m == "evaluate" || m == "eval_evalset")
    | none => false
  if restricted then Except.ok none
  else
    match latest with
    | none => Except.error (Err.notFittedError model_dir)
    | some _ => Except.ok (some (runEval ()))

/-- `BaseEstimator.evaluate` (lines 381-405): inputs are resolved through
`_get_input_fn` (no shuffle, one epoch), a non-dict `metrics` argument is
rejected, then `_evaluate_model` runs; a non-`None` result is returned with
the global step merged in (here already part of the pair). -/
def evaluate {XV F FF R : Type} (isTensor : XV → Bool) (cfg : Config)
    (latest : Option String) (model_dir : String)
    (x y : Option XV) (input_fn : Option F) (feed_fn : Option FF)
    (batch_size : Option Nat) (metrics : Option MetricsArg)
    (runEval : Unit → R × Nat) : Except Err (Option (R × Nat)) :=
  match get_input_fn isTensor x y input_fn feed_fn batch_size false (some 1) with
  | Except.error e => Except.error e
  | Except.ok _ =>
    match metrics with
    | some (MetricsArg.nonDict _) =>
      Except.error (Err.valueError "Metrics argument should be None or dict.")
    | _ => evaluate_model cfg latest model_dir runEval

/-! ## predict and the streaming inference generator -/

/-- One event of the engine's `run_feeds_iter` stream: a batch of output
values keyed by prediction name, the engine's `OutOfRangeError` (end of
inputs), or any other engine error. The stream ending without an event
models the feed sequence stopping (`StopIteration` from `feed_fn`). -/
inductive FeedEvent (V : Type) where
  | batch (b : List (String × List V))
  | outOfRange
  | failure (msg : String)
deriving DecidableEq, Repr

/-- One prediction yielded by the generator: a per-example dict when the
model returned a dict of outputs, a bare value otherwise. -/
inductive PredItem (V : Type) where
  | dict (kvs : List (String × V))
  | single (v : V)
deriving DecidableEq, Repr

/-- The batch-unpacking body of `_infer_model_as_iterable`: with
`return_dict` the batch length is read off the first value and one dict per
example index is yielded; otherwise the elements of the `predictions` entry
are yielded one by one. -/
def unpackBatch {V : Type} [Inhabited V] (return_dict : Bool)
    (b : List (String × List V)) : List (PredItem V) :=
  if return_dict then
    let n : Nat := match b with | [] => 0 | kv :: _ => kv.2.length
    (List.range n).map fun i =>
      PredItem.dict (b.map fun kv => (kv.1, kv.2.getD i default))
  else
    match dlookup "predictions" b with
    | some arr => arr.map PredItem.single
    | none => []

/-- `BaseEstimator._infer_model_as_iterable` (lines 839-867) as a function
of the engine's event stream: batches are unpacked and yielded in order; an
`OutOfRangeError` is caught (logged at info level) and the generator stops;
the stream ending stops it too; any other engine error stops the yielded
sequence and propagates to the consumer (the second component). -/
def infer_model_as_iterable {V : Type} [Inhabited V] (return_dict : Bool) :
    List (FeedEvent V) → List (PredItem V) × Option String
  | [] => ([], none)
  | FeedEvent.batch b :: rest =>
    let r := infer_model_as_iterable return_dict rest
    (unpackBatch return_dict b ++ r.1, r.2)
  | FeedEvent.outOfRange :: _ => ([], none)
  | FeedEvent.failure e :: _ => ([], some e)

/-- The outcome of `_infer_model`: the lazy sequence (with the error it
propagates, if any) or the eager `_infer_model_single` result. -/
inductive InferResult (V : Type) where
  | iterable (items : List (PredItem V)) (propagated : Option String)
  | single (preds : List (String × V))
deriving DecidableEq, Repr

/-- `BaseEstimator._infer_model` (lines 785-818): a missing checkpoint
raises `NotFittedError` before anything else; a single prediction is
wrapped into a dict under `predictions`; a non-empty `outputs` list filters
the dict (empty intersection is fatal); then the iterable or the eager path
runs. `engine` gives the event stream `run_feeds_iter` produces for the
selected outputs, `runSingle` abstracts `_infer_model_single`. -/
def infer_model {V : Type} [Inhabited V] (latest : Option String)
    (model_dir : String) (predictions : Predictions V)
    (outputs : Option (List String)) (as_iterable : Bool)
    (engine : List (String × V) → List (FeedEvent V))
    (runSingle : List (String × V) → List (String × V)) :
    Except Err (InferResult V) :=
  match latest with
  | none => Except.error (Err.notFittedError model_dir)
  | some _ =>
    let return_dict : Bool :=
      match predictions with
      | Predictions.dict _ => true
      | Predictions.single _ => false
    let preds : List (String × V) :=
      match predictions with
      | Predictions.dict kvs => kvs
      | Predictions.single v => [("predictions", v)]
    let go : List (String × V) → InferResult V := fun ps =>
      if as_iterable then
        let r := infer_model_as_iterable return_dict (engine ps)
        InferResult.iterable r.1 r.2
      else InferResult.single (runSingle ps)
    match outputs with
    | some (o :: os) =>
      let filtered := preds.filter fun kv => (o :: os).contains kv.1
      if filtered.isEmpty then
        Except.error (Err.valueError "Expected to run at least one output.")
      else Except.ok (go filtered)
    | _ => Except.ok (go preds)

/-- `BaseEstimator.predict` (lines 409-442): inputs resolved through
`_get_input_fn` with `y=None`, `feed_fn=None`, no shuffle, one epoch, then
`_infer_model`. -/
def predict {XV F V : Type} [Inhabited V] (isTensor : XV → Bool)
    (latest : Option String) (model_dir : String)
    (x : Option XV) (input_fn : Option F) (batch_size : Option Nat)
    (predictions : Predictions V) (outputs : Option (List String))
    (as_iterable : Bool)
    (engine : List (String × V) → List (FeedEvent V))
    (runSingle : List (String × V) → List (String × V)) :
    Except Err (InferResult V) :=
  match get_input_fn isTensor x none input_fn (none : Option Unit)
      batch_size false (some 1) with
  | Except.error e => Except.error e
  | Except.ok _ =>
    infer_model latest model_dir predictions outputs as_iterable engine runSingle

/-! ## fit -/

/-- `BaseEstimator.fit` (lines 317-338): rejects `steps` together with
`max_steps`, resolves inputs through `_get_input_fn` (shuffle on, unlimited
epochs), then delegates to `_train_model` (abstracted as `train_model`:
execution-mode guard, worker stagger and the supervised loop live there)
and returns the estimator itself. -/
def fit {XV F FF L : Type} (isTensor : XV → Bool)
    (x y : Option XV) (input_fn : Option F) (steps : Option Nat)
    (batch_size : Option Nat) (max_steps : Option Nat)
    (train_model : InputRes XV F FF → Except Err L) : Except Err Unit :=
  if steps.isSome && max_steps.isSome then
    Except.error (Err.valueError "Can not provide both steps and max_steps.")
  else
    match get_input_fn isTensor x y input_fn (none : Option FF)
        batch_size true none with
    | Except.error e => Except.error e
    | Except.ok r =>
      match train_model r with
      | Except.error e => Except.error e
      | Except.ok _ => Except.ok ()

/-! ## The pandas data adapter -/

/-- The dtype-name table `PANDAS_DTYPES` from pandas_io.py. -/
def PANDAS_DTYPES : List (String × String) :=
  [("int8", "int"), ("int16", "int"), ("int32", "int"), ("int64", "int"),
   ("uint8", "int"), ("uint16", "int"), ("uint32", "int"), ("uint64", "int"),
   ("float16", "float"), ("float32", "float"), ("float64", "float"),
   ("bool", "i")]

/-- The argument of `extract_pandas_data`: a `pandas.DataFrame` reduced to
its column labels with their dtype names plus its raw `values`, or any
other object. -/
inductive PandasData (V : Type) where
  | dataFrame (cols : List (String × String)) (values : V)
  | other (v : V)
deriving DecidableEq, Repr

/-- The result of `extract_pandas_data`: the input passed through
unchanged, or `data.values.astype(float)`. -/
inductive ExtractedData (V : Type) where
  | unchanged (v : V)
  | asFloat (v : V)
deriving DecidableEq, Repr

/-- `extract_pandas_data(data)` (pandas_io.py lines 45-72): non-DataFrame
input is returned unchanged; a DataFrame whose every column dtype name is a
key of `PANDAS_DTYPES` yields its values cast to float; any column with a
dtype outside the table raises `ValueError`. -/
def extract_pandas_data {V : Type} : PandasData V → Except Err (ExtractedData V)
  | PandasData.other v => Except.ok (ExtractedData.unchanged v)
  | PandasData.dataFrame cols values =>
    let bad_data := cols.filter fun c => !(PANDAS_DTYPES.any fun kv => kv.1 == c.2)
    if bad_data.isEmpty then Except.ok (ExtractedData.asFloat values)
    else Except.error (Err.valueError
      "Data types for extracting pandas data must be int, float, or bool.")

/-! ## Helper lemmas -/

theorem isValueError_iff {α : Type} {g : Except Err α} :
    isValueError g = true ↔ ∃ msg, g = Except.error (Err.valueError msg) := by
  cases g with
  | error e => cases e <;> simp [isValueError]
  | ok a => simp [isValueError]

theorem dcontains_eq_false_iff {α : Type} {k : String} {d : List (String × α)} :
    dcontains k d = false ↔ ∀ kv ∈ d, kv.1 ≠ k := by
  induction d with
  | nil => simp [dcontains]
  | cons kv rest ih => simp [dcontains, ih]

theorem dlookup_eq_none_of_not_contains {α : Type} {k : String}
    {d : List (String × α)} (h : dcontains k d = false) : dlookup k d = none := by
  induction d with
  | nil => simp [dlookup]
  | cons kv rest ih =>
    simp only [dcontains, Bool.or_eq_false_iff] at h
    simp [dlookup, h.1, ih h.2]

theorem dcontains_append {α : Type} (k : String) (d1 d2 : List (String × α)) :
    dcontains k (d1 ++ d2) = (dcontains k d1 || dcontains k d2) := by
  induction d1 with
  | nil => simp [dcontains]
  | cons kv rest ih => simp [dcontains, ih, Bool.or_assoc]

theorem dlookup_append_of_contains {α : Type} {k : String}
    {d1 : List (String × α)} (d2 : List (String × α))
    (h : dcontains k d1 = true) : dlookup k (d1 ++ d2) = dlookup k d1 := by
  induction d1 with
  | nil => simp [dcontains] at h
  | cons kv rest ih =>
    by_cases hk : kv.1 == k
    · simp [dlookup, hk]
    · simp only [dcontains, hk, Bool.false_or] at h
      simp [dlookup, hk, ih h]

theorem dlookup_append_of_not_contains {α : Type} {k : String}
    {d1 : List (String × α)} (d2 : List (String × α))
    (h : dcontains k d1 = false) : dlookup k (d1 ++ d2) = dlookup k d2 := by
  induction d1 with
  | nil => simp [dlookup]
  | cons kv rest ih =>
    simp only [dcontains, Bool.or_eq_false_iff] at h
    simp [dlookup, h.1, ih h.2]

theorem maybe_add_of_contains {T : Type} {r : MetricsDict T} {k : String}
    (v : T) (h : dcontains k r = true) :
    maybe_add_streaming_mean r k v = r := by
  simp [maybe_add_streaming_mean, h]

theorem maybe_add_of_not_contains {T : Type} {r : MetricsDict T} {k : String}
    (v : T) (h : dcontains k r = false) :
    maybe_add_streaming_mean r k v = r ++ [(k, MetricVal.streamingMean v)] := by
  simp [maybe_add_streaming_mean, h]

theorem dcontains_maybe_add_other {T : Type} {k1 k2 : String}
    (r : MetricsDict T) (v : T) (h : k1 ≠ k2) :
    dcontains k1 (maybe_add_streaming_mean r k2 v) = dcontains k1 r := by
  unfold maybe_add_streaming_mean
  by_cases hc : dcontains k2 r
  · simp [hc]
  · simp only [hc, Bool.false_eq_true, if_false, dcontains_append]
    have : dcontains k1 [(k2, MetricVal.streamingMean v)] = false := by
      simp [dcontains]
      exact fun he => (h he.symm).elim
    simp [this]

theorem dlookup_maybe_add_other {T : Type} {k1 k2 : String}
    (r : MetricsDict T) (v : T) (h : k1 ≠ k2) :
    dlookup k1 (maybe_add_streaming_mean r k2 v) = dlookup k1 r := by
  unfold maybe_add_streaming_mean
  by_cases hc : dcontains k2 r
  · simp [hc]
  · simp only [hc, Bool.false_eq_true, if_false]
    by_cases h1 : dcontains k1 r
    · exact dlookup_append_of_contains _ h1
    · rw [dlookup_append_of_not_contains _ (by simp [h1])]
      have hr : dlookup k1 r = none :=
        dlookup_eq_none_of_not_contains (by simp [h1])
      have hne : (k2 == k1) = false := by
        simp only [beq_eq_false_iff_ne, ne_eq]
        exact fun he => h he.symm
      simp [dlookup, hne, hr]

theorem dlookup_maybe_add_of_contains {T : Type} {k1 k2 : String}
    {r : MetricsDict T} (v : T) (h : dcontains k1 r = true) :
    dlookup k1 (maybe_add_streaming_mean r k2 v) = dlookup k1 r := by
  unfold maybe_add_streaming_mean
  by_cases hc : dcontains k2 r
  · simp [hc]
  · simp only [hc, Bool.false_eq_true, if_false]
    exact dlookup_append_of_contains _ h

theorem dlookup_maybe_add_self_new {T : Type} {k : String}
    {r : MetricsDict T} (v : T) (h : dcontains k r = false) :
    dlookup k (maybe_add_streaming_mean r k v) = some (MetricVal.streamingMean v) := by
  rw [maybe_add_of_not_contains v h, dlookup_append_of_not_contains _ h]
  simp [dlookup]

theorem dcontains_maybe_add_self {T : Type} (r : MetricsDict T) (k : String)
    (v : T) : dcontains k (maybe_add_streaming_mean r k v) = true := by
  unfold maybe_add_streaming_mean
  by_cases hc : dcontains k r
  · simp [hc]
  · simp [hc, dcontains_append, dcontains]

theorem dcontains_maybe_add_mono {T : Type} {k : String} {r : MetricsDict T}
    (k2 : String) (v : T) (h : dcontains k r = true) :
    dcontains k (maybe_add_streaming_mean r k2 v) = true := by
  unfold maybe_add_streaming_mean
  by_cases hc : dcontains k2 r
  · simp [hc, h]
  · simp [hc, dcontains_append, h]

theorem fold_maybe_add_lookup_of_contains {T : Type} {k : String}
    (kvs : List (String × T)) (r : MetricsDict T) (h : dcontains k r = true) :
    dlookup k (kvs.foldl (fun acc kv => maybe_add_streaming_mean acc kv.1 kv.2) r)
      = dlookup k r := by
  induction kvs generalizing r with
  | nil => rfl
  | cons kv rest ih =>
    simp only [List.foldl_cons]
    rw [ih _ (dcontains_maybe_add_mono kv.1 kv.2 h)]
    exact dlookup_maybe_add_of_contains kv.2 h

theorem fold_maybe_add_lookup_mem {T : Type} {k : String} {v : T}
    (kvs : List (String × T)) :
    ∀ r : MetricsDict T, (kvs.map Prod.fst).Nodup → (k, v) ∈ kvs →
      dcontains k r = false →
      dlookup k (kvs.foldl (fun acc kv => maybe_add_streaming_mean acc kv.1 kv.2) r)
        = some (MetricVal.streamingMean v) := by
  induction kvs with
  | nil => intro r _ hmem _; cases hmem
  | cons kv rest ih =>
    intro r hnd hmem h
    simp only [List.map_cons, List.nodup_cons] at hnd
    simp only [List.foldl_cons]
    rcases List.mem_cons.mp hmem with heq | hmem2
    · cases heq
      rw [fold_maybe_add_lookup_of_contains _ _ (dcontains_maybe_add_self r k v)]
      exact dlookup_maybe_add_self_new v h
    · have hk : k ≠ kv.1 := by
        intro he
        exact hnd.1 (he ▸ (List.mem_map.mpr ⟨(k, v), hmem2, rfl⟩))
      refine ih _ hnd.2 hmem2 ?_
      rw [dcontains_maybe_add_other r kv.2 hk]
      exact h

theorem fold_maybe_add_lookup_absent {T : Type} {k : String}
    (kvs : List (String × T)) :
    ∀ r : MetricsDict T, dcontains k r = false → (∀ kv ∈ kvs, kv.1 ≠ k) →
      dlookup k (kvs.foldl (fun acc kv => maybe_add_streaming_mean acc kv.1 kv.2) r)
        = none := by
  induction kvs with
  | nil => intro r h _; exact dlookup_eq_none_of_not_contains h
  | cons kv rest ih =>
    intro r h hni
    simp only [List.foldl_cons]
    have hk : k ≠ kv.1 := fun he => hni kv (List.mem_cons_self kv rest) he.symm
    refine ih _ ?_ (fun p hp => hni p (List.mem_cons_of_mem kv hp))
    rw [dcontains_maybe_add_other r kv.2 hk]
    exact h

theorem get_input_fn_err_xy_with_fn {XV F FF : Type} (isTensor : XV → Bool)
    (x y : Option XV) (f : F) (feed_fn : Option FF) (batch_size : Option Nat)
    (shuffle : Bool) (epochs : Option Nat) (h : (x.isSome || y.isSome) = true) :
    get_input_fn isTensor x y (some f) feed_fn batch_size shuffle epochs
      = Except.error (Err.valueError "Can not provide both input_fn and x or y.") := by
  simp [get_input_fn, h]

theorem get_input_fn_err_batch_with_fn {XV F FF : Type} (isTensor : XV → Bool)
    (x y : Option XV) (f : F) (feed_fn : Option FF) (batch_size : Option Nat)
    (shuffle : Bool) (epochs : Option Nat) (h : batch_size.isSome = true) :
    isValueError (get_input_fn isTensor x y (some f) feed_fn batch_size shuffle epochs)
      = true := by
  cases hxy : (x.isSome || y.isSome) with
  | true => simp [get_input_fn, hxy, isValueError]
  | false => simp [get_input_fn, hxy, h, isValueError]

theorem get_input_fn_err_neither {XV F FF : Type} (isTensor : XV → Bool)
    (y : Option XV) (feed_fn : Option FF) (batch_size : Option Nat)
    (shuffle : Bool) (epochs : Option Nat) :
    get_input_fn isTensor none y (none : Option F) feed_fn batch_size shuffle epochs
      = Except.error (Err.valueError "Either x or input_fn must be provided.") := by
  rfl

theorem fit_isValueError_of_input {XV F FF L : Type} (isTensor : XV → Bool)
    (x y : Option XV) (input_fn : Option F) (steps batch_size max_steps : Option Nat)
    (train_model : InputRes XV F FF → Except Err L)
    (h : isValueError
      (get_input_fn isTensor x y input_fn (none : Option FF) batch_size true none)
      = true) :
    isValueError (fit isTensor x y input_fn steps batch_size max_steps train_model)
      = true := by
  unfold fit
  by_cases hsm : (steps.isSome && max_steps.isSome) = true
  · simp [hsm, isValueError]
  · rw [if_neg hsm]
    rcases isValueError_iff.mp h with ⟨msg, hmsg⟩
    rw [hmsg]
    simp [isValueError]

theorem evaluate_isValueError_of_input {XV F FF R : Type} (isTensor : XV → Bool)
    (cfg : Config) (latest : Option String) (model_dir : String)
    (x y : Option XV) (input_fn : Option F) (feed_fn : Option FF)
    (batch_size : Option Nat) (metrics : Option MetricsArg)
    (runEval : Unit → R × Nat)
    (h : isValueError
      (get_input_fn isTensor x y input_fn feed_fn batch_size false (some 1))
      = true) :
    isValueError (evaluate isTensor cfg latest model_dir x y input_fn feed_fn
      batch_size metrics runEval) = true := by
  unfold evaluate
  rcases isValueError_iff.mp h with ⟨msg, hmsg⟩
  rw [hmsg]
  simp [isValueError]

theorem predict_isValueError_of_input {XV F V : Type} [Inhabited V]
    (isTensor : XV → Bool) (latest : Option String) (model_dir : String)
    (x : Option XV) (input_fn : Option F) (batch_size : Option Nat)
    (predictions : Predictions V) (outputs : Option (List String))
    (as_iterable : Bool) (engine : List (String × V) → List (FeedEvent V))
    (runSingle : List (String × V) → List (String × V))
    (h : isValueError
      (get_input_fn isTensor x none input_fn (none : Option Unit)
        batch_size false (some 1)) = true) :
    isValueError (predict isTensor latest model_dir x input_fn batch_size
      predictions outputs as_iterable engine runSingle) = true := by
  unfold predict
  rcases isValueError_iff.mp h with ⟨msg, hmsg⟩
  rw [hmsg]
  simp [isValueError]

theorem check_inputs_targets_preserves {T S : Type} {compatible : T → S → Bool}
    {create : T → S} {st st1 : SigState S} {t : Option T}
    (h : check_inputs_targets compatible create st t = Except.ok st1) :
    st1.features_info = st.features_info
    ∧ (∀ s, st.targets_info = some s → st1.targets_info = some s) := by
  obtain ⟨fi, ti⟩ := st
  cases t with
  | none =>
    simp only [check_inputs_targets] at h
    cases h; exact ⟨rfl, fun s hs => hs⟩
  | some t0 =>
    cases ti with
    | some info =>
      simp only [check_inputs_targets] at h
      by_cases hc : compatible t0 info = true
      · rw [if_pos hc] at h; cases h; exact ⟨rfl, fun s hs => hs⟩
      · rw [if_neg hc] at h; cases h
    | none =>
      simp only [check_inputs_targets] at h
      cases h
      exact ⟨rfl, fun s hs => by cases hs⟩

theorem check_inputs_preserves {T S : Type} {compatible : T → S → Bool}
    {create : T → S} {st st1 : SigState S} {f : T} {t : Option T}
    (h : check_inputs compatible create st f t = Except.ok st1) :
    (∀ s, st.features_info = some s → st1.features_info = some s)
    ∧ (∀ s, st.targets_info = some s → st1.targets_info = some s) := by
  obtain ⟨fi, ti⟩ := st
  cases fi with
  | some info =>
    simp only [check_inputs] at h
    by_cases hc : compatible f info = true
    · rw [if_pos hc] at h
      have hp := check_inputs_targets_preserves h
      exact ⟨fun s hs => by rw [hp.1]; exact hs, hp.2⟩
    · rw [if_neg hc] at h; cases h
  | none =>
    simp only [check_inputs] at h
    have hp := check_inputs_targets_preserves h
    constructor
    · intro s hs; cases hs
    · exact fun s hs => hp.2 s hs

theorem run_check_inputs_preserves {T S : Type} {compatible : T → S → Bool}
    {create : T → S} (calls : List (T × Option T)) :
    ∀ st st1 : SigState S,
      run_check_inputs compatible create st calls = Except.ok st1 →
      (∀ s, st.features_info = some s → st1.features_info = some s)
      ∧ (∀ s, st.targets_info = some s → st1.targets_info = some s) := by
  induction calls with
  | nil => intro st st1 h; cases h; exact ⟨fun s hs => hs, fun s hs => hs⟩
  | cons c rest ih =>
    intro st st1 h
    obtain ⟨f, t⟩ := c
    unfold run_check_inputs at h
    cases hc : check_inputs compatible create st f t with
    | error e => rw [hc] at h; cases h
    | ok st2 =>
      rw [hc] at h
      have h1 := check_inputs_preserves hc
      have h2 := ih st2 st1 h
      exact ⟨fun s hs => h2.1 s (h1.1 s hs), fun s hs => h2.2 s (h1.2 s hs)⟩

/-! ## Claim theorems -/

/-- C2: for every call to `fit`, `evaluate`, or `predict`, supplying `x` or
`y` together with `input_fn`, or supplying `batch_size` together with
`input_fn`, raises `ValueError`; supplying neither `x` nor `input_fn` also
raises `ValueError`. -/
theorem c2_input_exclusivity {XV F FF L R V : Type} [Inhabited V]
    (isTensor : XV → Bool) (x y : Option XV) (f : F) (feed_fn : Option FF)
    (steps batch_size max_steps : Option Nat)
    (train_model : InputRes XV F FF → Except Err L)
    (cfg : Config) (latest : Option String) (model_dir : String)
    (metrics : Option MetricsArg) (runEval : Unit → R × Nat)
    (predictions : Predictions V) (outputs : Option (List String))
    (as_iterable : Bool) (engine : List (String × V) → List (FeedEvent V))
    (runSingle : List (String × V) → List (String × V)) :
    ((x.isSome || y.isSome) = true →
      isValueError
        (fit isTensor x y (some f) steps batch_size max_steps train_model) = true)
    ∧ (batch_size.isSome = true →
      isValueError
        (fit isTensor x y (some f) steps batch_size max_steps train_model) = true)
    ∧ isValueError
        (fit isTensor none y (none : Option F) steps batch_size max_steps
          train_model) = true
    ∧ ((x.isSome || y.isSome) = true →
      isValueError (evaluate isTensor cfg latest model_dir x y (some f) feed_fn
        batch_size metrics runEval) = true)
    ∧ (batch_size.isSome = true →
      isValueError (evaluate isTensor cfg latest model_dir x y (some f) feed_fn
        batch_size metrics runEval) = true)
    ∧ isValueError (evaluate isTensor cfg latest model_dir none y
        (none : Option F) feed_fn batch_size metrics runEval) = true
    ∧ (x.isSome = true →
      isValueError (predict isTensor latest model_dir x (some f) batch_size
        predictions outputs as_iterable engine runSingle) = true)
    ∧ (batch_size.isSome = true →
      isValueError (predict isTensor latest model_dir x (some f) batch_size
        predictions outputs as_iterable engine runSingle) = true)
    ∧ isValueError (predict isTensor latest model_dir none (none : Option F)
        batch_size predictions outputs as_iterable engine runSingle) = true := by
  refine ⟨fun hxy => ?_, fun hb => ?_, ?_, fun hxy => ?_, fun hb => ?_, ?_,
    fun hx => ?_, fun hb => ?_, ?_⟩
  · exact fit_isValueError_of_input _ _ _ _ _ _ _ _
      (by rw [get_input_fn_err_xy_with_fn _ _ _ _ _ _ _ _ hxy]; rfl)
  · exact fit_isValueError_of_input _ _ _ _ _ _ _ _
      (get_input_fn_err_batch_with_fn _ _ _ _ _ _ _ _ hb)
  · exact fit_isValueError_of_input _ _ _ _ _ _ _ _
      (by rw [get_input_fn_err_neither]; rfl)
  · exact evaluate_isValueError_of_input _ _ _ _ _ _ _ _ _ _ _
      (by rw [get_input_fn_err_xy_with_fn _ _ _ _ _ _ _ _ hxy]; rfl)
  · exact evaluate_isValueError_of_input _ _ _ _ _ _ _ _ _ _ _
      (get_input_fn_err_batch_with_fn _ _ _ _ _ _ _ _ hb)
  · exact evaluate_isValueError_of_input _ _ _ _ _ _ _ _ _ _ _
      (by rw [get_input_fn_err_neither]; rfl)
  · exact predict_isValueError_of_input _ _ _ _ _ _ _ _ _ _ _
      (by
        rw [get_input_fn_err_xy_with_fn _ _ _ _ _ _ _ _ (by simp [hx])]
        rfl)
  · exact predict_isValueError_of_input _ _ _ _ _ _ _ _ _ _ _
      (get_input_fn_err_batch_with_fn _ _ _ _ _ _ _ _ hb)
  · exact predict_isValueError_of_input _ _ _ _ _ _ _ _ _ _ _
      (by rw [get_input_fn_err_neither]; rfl)

/-- C2 witness: the three failure modes observed on concrete calls. -/
theorem c2_input_exclusivity_witness :
    ((some 1 : Option Nat).isSome || (none : Option Nat).isSome) = true
    ∧ isValueError
        (fit (fun (_ : Nat) => false) (some 1) none (some ()) none none none
          (fun (_ : InputRes Nat Unit Unit) => Except.ok 0)) = true
    ∧ isValueError
        (evaluate (fun (_ : Nat) => false) ⟨none⟩ none "dir" none none
          (some ()) (none : Option Unit) (some 8) none
          (fun _ => ((0 : Nat), 0))) = true
    ∧ isValueError
        (predict (fun (_ : Nat) => false) none "dir" none (none : Option Unit)
          none (Predictions.single (0 : Nat)) none true (fun _ => [])
          (fun ps => ps)) = true := by
  refine ⟨by decide, ?_, ?_, ?_⟩
  · exact (c2_input_exclusivity (fun (_ : Nat) => false) (some 1) none ()
      (none : Option Unit) none none none
      (fun (_ : InputRes Nat Unit Unit) => Except.ok (0 : Nat))
      ⟨none⟩ none "dir" none (fun _ => ((0 : Nat), 0))
      (Predictions.single (0 : Nat)) none true (fun _ => [])
      (fun ps => ps)).1 (by decide)
  · exact (c2_input_exclusivity (fun (_ : Nat) => false) none none ()
      (none : Option Unit) none (some 8) none
      (fun (_ : InputRes Nat Unit Unit) => Except.ok (0 : Nat))
      ⟨none⟩ none "dir" none (fun _ => ((0 : Nat), 0))
      (Predictions.single (0 : Nat)) none true (fun _ => [])
      (fun ps => ps)).2.2.2.2.1 (by decide)
  · exact (c2_input_exclusivity (fun (_ : Nat) => false) none none ()
      (none : Option Unit) none none none
      (fun (_ : InputRes Nat Unit Unit) => Except.ok (0 : Nat))
      ⟨none⟩ none "dir" none (fun _ => ((0 : Nat), 0))
      (Predictions.single (0 : Nat)) none true (fun _ => [])
      (fun ps => ps)).2.2.2.2.2.2.2.2

/-- C1 (amended): `predict`'s checkpoint gate always raises
`NotFittedError` when `model_dir` holds no checkpoint, before the engine is
consulted; `evaluate`'s gate does the same provided the configuration's
`execution_mode`, when the attribute is present, is one of
`all`/`evaluate`/`eval_evalset` — with any other `execution_mode` the
evaluation path returns `None` without ever checking for a checkpoint. -/
theorem c1_not_fitted {V R : Type} [Inhabited V]
    (model_dir : String) (predictions : Predictions V)
    (outputs : Option (List String)) (as_iterable : Bool)
    (engine : List (String × V) → List (FeedEvent V))
    (runSingle : List (String × V) → List (String × V))
    (cfg : Config) (runEval : Unit → R × Nat) :
    infer_model none model_dir predictions outputs as_iterable engine runSingle
      = Except.error (Err.notFittedError model_dir)
    ∧ ((∀ m, cfg.execution_mode = some m →
          m = "all" ∨ m = "evaluate" ∨ m = "eval_evalset") →
        evaluate_model cfg none model_dir runEval
          = Except.error (Err.notFittedError model_dir)) := by
  constructor
  · rfl
  · intro hm
    unfold evaluate_model
    cases hcm : cfg.execution_mode with
    | none => rfl
    | some m =>
      rcases hm m hcm with h | h | h <;> subst h <;> rfl

/-- C1 witness: both not-fitted gates observed at concrete inputs. -/
theorem c1_not_fitted_witness :
    infer_model none "dir" (Predictions.single (0 : Nat)) none true
        (fun _ => []) (fun ps => ps) = Except.error (Err.notFittedError "dir")
    ∧ evaluate_model ⟨some "evaluate"⟩ none "dir" (fun _ => ((0 : Nat), 0))
        = Except.error (Err.notFittedError "dir") := by
  have h := c1_not_fitted "dir" (Predictions.single (0 : Nat)) none true
    (fun _ => []) (fun ps => ps) (⟨some "evaluate"⟩ : Config)
    (fun _ => ((0 : Nat), 0))
  refine ⟨h.1, h.2 (fun m hm => ?_)⟩
  injection hm with h2
  exact Or.inr (Or.inl h2.symm)

/-- C1 counterexample: an estimator whose configuration has
`execution_mode = "train"` and whose `model_dir` holds no checkpoint: the
claim says `evaluate` raises `NotFittedError`, but `evaluate` returns
`None` without raising anything. -/
theorem c1_not_fitted_cex :
    evaluate (fun (_ : Nat) => false) ⟨some "train"⟩ none "dir" (some 1) none
        (none : Option Unit) (none : Option Unit) none none
        (fun _ => ((0 : Nat), 0)) = Except.ok none
    ∧ isNotFitted (evaluate (fun (_ : Nat) => false) ⟨some "train"⟩ none "dir"
        (some 1) none (none : Option Unit) (none : Option Unit) none none
        (fun _ => ((0 : Nat), 0))) = false := by
  exact ⟨rfl, rfl⟩

/-- C9: when the configuration carries an `execution_mode` attribute whose
value is not `all`/`evaluate`/`eval_evalset`, `evaluate` returns `None` —
for every checkpoint state and every engine behaviour, so no graph is built
and no `NotFittedError` is raised — provided input resolution and the
metrics type check pass. -/
theorem c9_execution_mode_skips_eval {XV F FF R : Type}
    (isTensor : XV → Bool) (cfg : Config) (m : String)
    (latest : Option String) (model_dir : String)
    (x y : Option XV) (input_fn : Option F) (feed_fn : Option FF)
    (batch_size : Option Nat) (metrics : Option MetricsArg)
    (runEval : Unit → R × Nat) (r : InputRes XV F FF)
    (hcm : cfg.execution_mode = some m)
    (hm : ¬(m = "all" ∨ m = "evaluate" ∨ m = "eval_evalset"))
    (hin : get_input_fn isTensor x y input_fn feed_fn batch_size false (some 1)
      = Except.ok r)
    (hmet : ∀ u, metrics ≠ some (MetricsArg.nonDict u)) :
    evaluate isTensor cfg latest model_dir x y input_fn feed_fn batch_size
      metrics runEval = Except.ok none := by
  have h1 : (m == "all") = false :=
    beq_eq_false_iff_ne.mpr (fun h => hm (Or.inl h))
  have h2 : (m == "evaluate") = false :=
    beq_eq_false_iff_ne.mpr (fun h => hm (Or.inr (Or.inl h)))
  have h3 : (m == "eval_evalset") = false :=
    beq_eq_false_iff_ne.mpr (fun h => hm (Or.inr (Or.inr h)))
  have hev : evaluate_model cfg latest model_dir runEval = Except.ok none := by
    unfold evaluate_model
    rw [hcm]
    simp [h1, h2, h3]
  unfold evaluate
  rw [hin]
  cases metrics with
  | none => exact hev
  | some ma =>
    cases ma with
    | dict u => exact hev
    | nonDict u => exact absurd rfl (hmet u)

/-- C9 witness: a configuration restricted to training makes `evaluate`
return `None` even with no checkpoint present. -/
theorem c9_execution_mode_skips_eval_witness :
    ¬("train" = "all" ∨ "train" = "evaluate" ∨ "train" = "eval_evalset")
    ∧ evaluate (fun (_ : Nat) => false) ⟨some "train"⟩ none "dir" (some 1) none
        (none : Option Unit) (none : Option Unit) none none
        (fun _ => ((0 : Nat), 0)) = Except.ok none := by
  refine ⟨by decide, ?_⟩
  exact c9_execution_mode_skips_eval (fun (_ : Nat) => false) ⟨some "train"⟩
    "train" none "dir" (some 1) none none none none none
    (fun _ => ((0 : Nat), 0)) (InputRes.dataFeeder 1 none none false (some 1))
    rfl (by decide) rfl (fun u h => by cases h)

theorem check_inputs_of_compat {T S : Type} {compatible : T → S → Bool}
    {create : T → S} {st : SigState S} {features : T} {targets : Option T}
    {fsig : S} (hfs : st.features_info = some fsig)
    (hfc : compatible features fsig = true) :
    check_inputs compatible create st features targets
      = check_inputs_targets compatible create st targets := by
  obtain ⟨fi, ti⟩ := st
  simp only at hfs
  subst hfs
  simp [check_inputs, hfc]

theorem check_inputs_of_fresh {T S : Type} {compatible : T → S → Bool}
    {create : T → S} {st : SigState S} {features : T} {targets : Option T}
    (hfn : st.features_info = none) :
    check_inputs compatible create st features targets
      = check_inputs_targets compatible create
          { st with features_info := some (create features) } targets := by
  obtain ⟨fi, ti⟩ := st
  simp only at hfn
  subst hfn
  simp [check_inputs]

theorem check_inputs_features_err {T S : Type} {compatible : T → S → Bool}
    {create : T → S} {st : SigState S} {features : T} {targets : Option T}
    {fsig : S} (hfs : st.features_info = some fsig)
    (hfc : compatible features fsig = false) :
    check_inputs compatible create st features targets
      = Except.error
        (Err.valueError "Features are incompatible with given information.") := by
  obtain ⟨fi, ti⟩ := st
  simp only at hfs
  subst hfs
  simp [check_inputs, hfc]

theorem check_inputs_targets_err {T S : Type} {compatible : T → S → Bool}
    {create : T → S} {st : SigState S} {t : T} {tsig : S}
    (hti : st.targets_info = some tsig) (hc : compatible t tsig = false) :
    check_inputs_targets compatible create st (some t)
      = Except.error
        (Err.valueError "Targets are incompatible with given information.") := by
  obtain ⟨fi, ti⟩ := st
  simp only at hti
  subst hti
  simp [check_inputs_targets, hc]

/-- C3: once a feature (or target) signature has been established on an
estimator instance, a later call whose features (or targets) are
structurally incompatible with the stored signature raises the
incompatible-signature `ValueError`, and any sequence of successful later
calls leaves the stored signatures unchanged for the lifetime of the
instance. -/
theorem c3_signature_frozen {T S : Type} (compatible : T → S → Bool)
    (create : T → S) (st : SigState S) (features : T) (targets : Option T) :
    (∀ fsig, st.features_info = some fsig → compatible features fsig = false →
      check_inputs compatible create st features targets
        = Except.error
          (Err.valueError "Features are incompatible with given information."))
    ∧ (∀ tsig t, targets = some t → st.targets_info = some tsig →
        compatible t tsig = false →
        (st.features_info = none ∨
          ∃ fsig, st.features_info = some fsig
            ∧ compatible features fsig = true) →
        check_inputs compatible create st features targets
          = Except.error
            (Err.valueError "Targets are incompatible with given information."))
    ∧ (∀ calls st1,
        run_check_inputs compatible create st calls = Except.ok st1 →
        (∀ fsig, st.features_info = some fsig → st1.features_info = some fsig)
        ∧ (∀ tsig, st.targets_info = some tsig → st1.targets_info = some tsig)) := by
  refine ⟨?_, ?_, ?_⟩
  · intro fsig hf hc
    exact check_inputs_features_err hf hc
  · intro tsig t ht hti hc hfeat
    subst ht
    rcases hfeat with hfn | ⟨fsig, hfs, hfc⟩
    · rw [check_inputs_of_fresh hfn]
      exact check_inputs_targets_err hti hc
    · rw [check_inputs_of_compat hfs hfc]
      exact check_inputs_targets_err hti hc
  · intro calls st1 hrun
    have hp := run_check_inputs_preserves calls st st1 hrun
    exact ⟨fun fsig hf => hp.1 fsig hf, fun tsig ht => hp.2 tsig ht⟩

/-- C3 witness: with equality as the compatibility check, an established
signature state rejects an incompatible feature batch and an incompatible
target batch, and survives a compatible run unchanged. -/
theorem c3_signature_frozen_witness :
    check_inputs (fun (a b : Nat) => a == b) id ⟨some 1, some 2⟩ 3 none
      = Except.error
        (Err.valueError "Features are incompatible with given information.")
    ∧ check_inputs (fun (a b : Nat) => a == b) id ⟨some 1, some 2⟩ 1 (some 5)
      = Except.error
        (Err.valueError "Targets are incompatible with given information.")
    ∧ (⟨some 1, some 2⟩ : SigState Nat).features_info = some 1 := by
  refine ⟨?_, ?_, ?_⟩
  · exact (c3_signature_frozen (fun (a b : Nat) => a == b) id
      ⟨some 1, some 2⟩ 3 none).1 1 rfl (by decide)
  · exact (c3_signature_frozen (fun (a b : Nat) => a == b) id
      ⟨some 1, some 2⟩ 1 (some 5)).2.1 2 5 rfl rfl (by decide)
      (Or.inr ⟨1, rfl, by decide⟩)
  · exact ((c3_signature_frozen (fun (a b : Nat) => a == b) id
      ⟨some 1, some 2⟩ 1 (some 2)).2.2 [(1, some 2)] ⟨some 1, some 2⟩
      rfl).1 1 rfl

theorem validate_train_op_ok {top : Option TrainOpArg} {mode : ModeKeys}
    (h : mode = ModeKeys.train → top.isSome = true) :
    validate_train_op mode top = Except.ok (top.map coerce_train_op) := by
  cases top with
  | some t => rfl
  | none =>
    cases mode with
    | train => exact absurd (h rfl) (by simp)
    | eval => rfl
    | infer => rfl

theorem validate_predictions_ok {preds : Option (Predictions Tensor)}
    {mode : ModeKeys} (h : mode = ModeKeys.infer → preds.isSome = true) :
    validate_predictions mode preds = Except.ok preds := by
  cases preds with
  | some p => rfl
  | none =>
    cases mode with
    | infer => exact absurd (h rfl) (by simp)
    | train => rfl
    | eval => rfl

theorem validate_loss_ok_of_shape (mode : ModeKeys) (l : Tensor)
    (h : numElements l.shape = some 1 ∨ numElements l.shape = none) :
    validate_loss mode (some l)
      = Except.ok (some (if isCompatibleWithScalar l.shape then l
          else { l with shape := some [] })) := by
  simp only [validate_loss]
  rcases h with h1 | h1 <;> rw [h1] <;>
    by_cases hc : isCompatibleWithScalar l.shape = true <;> simp [hc]

theorem validate_train_op_err_msg {mode : ModeKeys} {top : Option TrainOpArg}
    {e : Err} (h : validate_train_op mode top = Except.error e) :
    e = Err.valueError "Missing train_op." := by
  cases top with
  | some t => simp [validate_train_op] at h
  | none =>
    cases mode with
    | train => simp [validate_train_op] at h; exact h.symm
    | eval => simp [validate_train_op] at h
    | infer => simp [validate_train_op] at h

theorem validate_loss_err_msgs {mode : ModeKeys} {loss : Option Tensor}
    {e : Err} (h : validate_loss mode loss = Except.error e) :
    e = Err.valueError "Missing loss." ∨ e = Err.valueError "Loss must be scalar." := by
  cases loss with
  | none =>
    cases mode with
    | train => simp [validate_loss] at h; exact Or.inl h.symm
    | eval => simp [validate_loss] at h; exact Or.inl h.symm
    | infer => simp [validate_loss] at h
  | some l =>
    simp only [validate_loss] at h
    cases hn : numElements l.shape with
    | some n =>
      rw [hn] at h
      by_cases h1 : n = 1
      · by_cases hc : isCompatibleWithScalar l.shape = true <;> simp [h1, hc] at h
      · simp [h1] at h; exact Or.inr h.symm
    | none =>
      rw [hn] at h
      by_cases hc : isCompatibleWithScalar l.shape = true <;> simp [hc] at h

theorem validate_predictions_err_msg {mode : ModeKeys}
    {preds : Option (Predictions Tensor)} {e : Err}
    (h : validate_predictions mode preds = Except.error e) :
    e = Err.valueError "Missing predictions." := by
  cases preds with
  | some p => simp [validate_predictions] at h
  | none =>
    cases mode with
    | train => simp [validate_predictions] at h
    | eval => simp [validate_predictions] at h
    | infer => simp [validate_predictions] at h; exact h.symm

theorem validate_model_fn_result_eq {mode : ModeKeys}
    {preds p : Option (Predictions Tensor)} {loss lo : Option Tensor}
    {top tro : Option TrainOpArg}
    (h1 : validate_train_op mode top = Except.ok tro)
    (h2 : validate_loss mode loss = Except.ok lo)
    (h3 : validate_predictions mode preds = Except.ok p) :
    validate_model_fn_result mode preds loss top = Except.ok (p, lo, tro) := by
  unfold validate_model_fn_result
  rw [h1, h2, h3]

theorem validate_model_fn_result_err_train_op {mode : ModeKeys}
    {preds : Option (Predictions Tensor)} {loss : Option Tensor}
    {top : Option TrainOpArg} {e : Err}
    (h : validate_train_op mode top = Except.error e) :
    validate_model_fn_result mode preds loss top = Except.error e := by
  unfold validate_model_fn_result
  rw [h]

theorem validate_model_fn_result_err_loss {mode : ModeKeys}
    {preds : Option (Predictions Tensor)} {loss : Option Tensor}
    {top tro : Option TrainOpArg} {e : Err}
    (h1 : validate_train_op mode top = Except.ok tro)
    (h2 : validate_loss mode loss = Except.error e) :
    validate_model_fn_result mode preds loss top = Except.error e := by
  unfold validate_model_fn_result
  rw [h1, h2]

theorem validate_model_fn_result_err_preds {mode : ModeKeys}
    {preds : Option (Predictions Tensor)} {loss lo : Option Tensor}
    {top tro : Option TrainOpArg} {e : Err}
    (h1 : validate_train_op mode top = Except.ok tro)
    (h2 : validate_loss mode loss = Except.ok lo)
    (h3 : validate_predictions mode preds = Except.error e) :
    validate_model_fn_result mode preds loss top = Except.error e := by
  unfold validate_model_fn_result
  rw [h1, h2, h3]

/-- C4: the model function's returned triple is validated by mode — a
`None` `training_op` in TRAIN mode, a `None` loss in TRAIN or EVAL mode and
`None` predictions in INFER mode each raise the missing-required-output
`ValueError`; in every other mode the corresponding `None` output is
accepted (no missing-output error is raised for it). -/
theorem c4_required_outputs (mode : ModeKeys)
    (preds : Option (Predictions Tensor)) (loss : Option Tensor)
    (top : Option TrainOpArg) (t : TrainOpArg) (l : Tensor) :
    validate_model_fn_result ModeKeys.train preds loss none
      = Except.error (Err.valueError "Missing train_op.")
    ∧ validate_model_fn_result ModeKeys.train preds none (some t)
      = Except.error (Err.valueError "Missing loss.")
    ∧ validate_model_fn_result ModeKeys.eval preds none top
      = Except.error (Err.valueError "Missing loss.")
    ∧ validate_model_fn_result ModeKeys.infer none none top
      = Except.error (Err.valueError "Missing predictions.")
    ∧ (numElements l.shape = some 1 ∨ numElements l.shape = none →
        validate_model_fn_result ModeKeys.infer none (some l) top
          = Except.error (Err.valueError "Missing predictions."))
    ∧ (mode ≠ ModeKeys.train →
        validate_model_fn_result mode preds loss none
          ≠ Except.error (Err.valueError "Missing train_op."))
    ∧ validate_model_fn_result ModeKeys.infer preds none top
        ≠ Except.error (Err.valueError "Missing loss.")
    ∧ (mode ≠ ModeKeys.infer →
        validate_model_fn_result mode none loss top
          ≠ Except.error (Err.valueError "Missing predictions.")) := by
  refine ⟨?_, ?_, ?_, ?_, ?_, ?_, ?_, ?_⟩
  · exact validate_model_fn_result_err_train_op rfl
  · exact validate_model_fn_result_err_loss rfl rfl
  · cases top with
    | none => exact validate_model_fn_result_err_loss rfl rfl
    | some t2 => exact validate_model_fn_result_err_loss rfl rfl
  · cases top with
    | none => exact validate_model_fn_result_err_preds rfl rfl rfl
    | some t2 => exact validate_model_fn_result_err_preds rfl rfl rfl
  · intro hsh
    have h2 := validate_loss_ok_of_shape ModeKeys.infer l hsh
    cases top with
    | none => exact validate_model_fn_result_err_preds rfl h2 rfl
    | some t2 => exact validate_model_fn_result_err_preds rfl h2 rfl
  · intro hm hcontra
    have h1 : validate_train_op mode none
        = Except.ok ((none : Option TrainOpArg).map coerce_train_op) :=
      validate_train_op_ok (fun hh => (hm hh).elim)
    cases h2 : validate_loss mode loss with
    | error e =>
      rw [validate_model_fn_result_err_loss h1 h2] at hcontra
      injection hcontra with he
      rcases validate_loss_err_msgs h2 with h3 | h3 <;> rw [h3] at he <;>
        exact absurd he (by decide)
    | ok lo =>
      cases h3 : validate_predictions mode preds with
      | error e2 =>
        rw [validate_model_fn_result_err_preds h1 h2 h3] at hcontra
        injection hcontra with he
        rw [validate_predictions_err_msg h3] at he
        exact absurd he (by decide)
      | ok p =>
        rw [validate_model_fn_result_eq h1 h2 h3] at hcontra
        cases hcontra
  · intro hcontra
    have h1 : validate_train_op ModeKeys.infer top
        = Except.ok (top.map coerce_train_op) :=
      validate_train_op_ok (fun hh => nomatch hh)
    have h2 : validate_loss ModeKeys.infer none = Except.ok none := rfl
    cases h3 : validate_predictions ModeKeys.infer preds with
    | error e2 =>
      rw [validate_model_fn_result_err_preds h1 h2 h3] at hcontra
      injection hcontra with he
      rw [validate_predictions_err_msg h3] at he
      exact absurd he (by decide)
    | ok p =>
      rw [validate_model_fn_result_eq h1 h2 h3] at hcontra
      cases hcontra
  · intro hm hcontra
    have h3 : validate_predictions mode none
        = Except.ok (none : Option (Predictions Tensor)) :=
      validate_predictions_ok (fun hh => (hm hh).elim)
    cases h1 : validate_train_op mode top with
    | error e =>
      rw [validate_model_fn_result_err_train_op h1] at hcontra
      injection hcontra with he
      rw [validate_train_op_err_msg h1] at he
      exact absurd he (by decide)
    | ok tro =>
      cases h2 : validate_loss mode loss with
      | error e =>
        rw [validate_model_fn_result_err_loss h1 h2] at hcontra
        injection hcontra with he
        rcases validate_loss_err_msgs h2 with h4 | h4 <;> rw [h4] at he <;>
          exact absurd he (by decide)
      | ok lo =>
        rw [validate_model_fn_result_eq h1 h2 h3] at hcontra
        cases hcontra

/-- C4 witness: the three missing-output errors and one acceptance case at
concrete inputs. -/
theorem c4_required_outputs_witness :
    validate_model_fn_result ModeKeys.train none (some ⟨some [], 0⟩) none
      = Except.error (Err.valueError "Missing train_op.")
    ∧ validate_model_fn_result ModeKeys.eval none none none
      = Except.error (Err.valueError "Missing loss.")
    ∧ (numElements (some [] : TShape) = some 1
        ∨ numElements (some [] : TShape) = none)
    ∧ validate_model_fn_result ModeKeys.infer none (some ⟨some [], 0⟩) none
      = Except.error (Err.valueError "Missing predictions.")
    ∧ ModeKeys.eval ≠ ModeKeys.train
    ∧ validate_model_fn_result ModeKeys.eval none (some ⟨some [], 0⟩) none
      ≠ Except.error (Err.valueError "Missing train_op.") := by
  have h := c4_required_outputs ModeKeys.eval none (some ⟨some [], 0⟩) none
    (TrainOpArg.operation 0) ⟨some [], 0⟩
  exact ⟨h.1, h.2.2.1, Or.inl rfl, h.2.2.2.2.1 (Or.inl rfl), by decide,
    h.2.2.2.2.2.1 (by decide)⟩

/-- C5: a non-`None` model-function loss whose shape has a known element
count of two or more raises the invalid-shape `ValueError` in every mode; a
single-element loss that is not already rank 0 is reshaped to the scalar
shape; a rank-0 loss is passed through unchanged. -/
theorem c5_loss_scalar (mode : ModeKeys)
    (preds : Option (Predictions Tensor)) (l : Tensor)
    (top : Option TrainOpArg)
    (htop : mode = ModeKeys.train → top.isSome = true) :
    (∀ n, numElements l.shape = some n → 2 ≤ n →
      validate_model_fn_result mode preds (some l) top
        = Except.error (Err.valueError "Loss must be scalar."))
    ∧ ((mode = ModeKeys.infer → preds.isSome = true) →
      (numElements l.shape = some 1 → isCompatibleWithScalar l.shape = false →
        validate_model_fn_result mode preds (some l) top
          = Except.ok (preds, some { l with shape := some [] },
              top.map coerce_train_op))
      ∧ (l.shape = some [] →
        validate_model_fn_result mode preds (some l) top
          = Except.ok (preds, some l, top.map coerce_train_op))) := by
  have h1 := validate_train_op_ok htop
  constructor
  · intro n hn h2n
    have hne : n ≠ 1 := by omega
    have h2 : validate_loss mode (some l)
        = Except.error (Err.valueError "Loss must be scalar.") := by
      simp only [validate_loss]
      rw [hn]
      simp [hne]
    exact validate_model_fn_result_err_loss h1 h2
  · intro hpred
    have h3 := validate_predictions_ok hpred
    constructor
    · intro hn hc
      have h2 := validate_loss_ok_of_shape mode l (Or.inl hn)
      rw [hc] at h2
      simp only [Bool.false_eq_true, if_false] at h2
      exact validate_model_fn_result_eq h1 h2 h3
    · intro hsh
      have hn : numElements l.shape = some 1 := by rw [hsh]; rfl
      have hc : isCompatibleWithScalar l.shape = true := by rw [hsh]; rfl
      have h2 := validate_loss_ok_of_shape mode l (Or.inl hn)
      rw [hc] at h2
      simp only [if_true] at h2
      exact validate_model_fn_result_eq h1 h2 h3

/-- C5 witness: a two-element loss is rejected, a one-element rank-1 loss
is reshaped to rank 0, and a rank-0 loss passes through, all in EVAL mode. -/
theorem c5_loss_scalar_witness :
    validate_model_fn_result ModeKeys.eval none (some ⟨some [some 2], 0⟩)
        (some (TrainOpArg.operation 3))
      = Except.error (Err.valueError "Loss must be scalar.")
    ∧ validate_model_fn_result ModeKeys.eval none (some ⟨some [some 1], 7⟩)
        (some (TrainOpArg.operation 3))
      = Except.ok (none, some ⟨some [], 7⟩, some (TrainOpArg.operation 3))
    ∧ validate_model_fn_result ModeKeys.eval none (some ⟨some [], 7⟩)
        (some (TrainOpArg.operation 3))
      = Except.ok (none, some ⟨some [], 7⟩, some (TrainOpArg.operation 3)) := by
  refine ⟨?_, ?_, ?_⟩
  · exact (c5_loss_scalar ModeKeys.eval none ⟨some [some 2], 0⟩
      (some (TrainOpArg.operation 3)) (fun _ => rfl)).1 2 rfl (by decide)
  · exact ((c5_loss_scalar ModeKeys.eval none ⟨some [some 1], 7⟩
      (some (TrainOpArg.operation 3)) (fun _ => rfl)).2
      (fun hh => nomatch hh)).1 rfl rfl
  · exact ((c5_loss_scalar ModeKeys.eval none ⟨some [], 7⟩
      (some (TrainOpArg.operation 3)) (fun _ => rfl)).2
      (fun hh => nomatch hh)).2 rfl

/-- C6 (amended): the model function is dispatched by its declared
argument NAMES, not by its argument count: it receives `mode` exactly when
an argument named `mode` is declared, and additionally `params` exactly
when both `mode` and `params` are declared; in particular the three
canonical signatures `(features, targets)`, `(features, targets, mode)`
and `(features, targets, mode, params)` receive 2, 3 and 4 arguments
respectively, and arity introspection looks through callable objects and
partial applications. -/
theorem c6_arity_dispatch (args : List String) (f : PyFunc) :
    dispatch_form (get_arguments (PyFunc.regular ["features", "targets"]))
      = CallForm.withFeaturesTargets
    ∧ dispatch_form (get_arguments (PyFunc.regular ["features", "targets", "mode"]))
      = CallForm.withMode
    ∧ dispatch_form
        (get_arguments (PyFunc.regular ["features", "targets", "mode", "params"]))
      = CallForm.withModeParams
    ∧ (dispatch_form args = CallForm.withModeParams
        ↔ "mode" ∈ args ∧ "params" ∈ args)
    ∧ (dispatch_form args = CallForm.withMode
        ↔ "mode" ∈ args ∧ "params" ∉ args)
    ∧ (dispatch_form args = CallForm.withFeaturesTargets ↔ "mode" ∉ args)
    ∧ get_arguments (PyFunc.callableObj f) = get_arguments f
    ∧ get_arguments (PyFunc.wrapped f) = get_arguments f := by
  refine ⟨by decide, by decide, by decide, ?_, ?_, ?_, rfl, rfl⟩ <;>
    unfold dispatch_form <;>
    by_cases hm : "mode" ∈ args <;> by_cases hp : "params" ∈ args <;>
    simp [hm, hp]

/-- C6 counterexample: a model function declaring exactly three arguments
`(features, targets, params)` — the claim says a 3-argument function is
additionally passed `mode`, but the dispatch (which tests argument names)
calls it with `(features, targets)` only. -/
theorem c6_arity_dispatch_cex :
    (get_arguments (PyFunc.regular ["features", "targets", "params"])).length = 3
    ∧ dispatch_form (get_arguments (PyFunc.regular ["features", "targets", "params"]))
      ≠ CallForm.withMode
    ∧ dispatch_form (get_arguments (PyFunc.regular ["features", "targets", "params"]))
      = CallForm.withFeaturesTargets := by
  exact ⟨rfl, by decide, by decide⟩

/-- C7 (amended): in the EVAL-mode metrics mapping, every key of the
user-metrics result keeps its user value, never overwritten; a streaming
mean of the loss is added under `loss` whenever that key is free in the
user result; a streaming mean of each named prediction is added under its
name whenever the key is free in the user result AND differs from `loss`
(each addition is checked against the dict at insertion time, and the loss
entry is inserted first, so a prediction named `loss` is skipped even when
the user result does not contain that key); a single un-named prediction is
added under `predictions` when free; no other key appears. -/
theorem c7_eval_metrics (r0 : MetricsDict Tensor) (loss p : Tensor)
    (kvs : List (String × Tensor)) (preds : Option (Predictions Tensor)) :
    (∀ k, dcontains k r0 = true →
      dlookup k (get_eval_ops r0 loss preds) = dlookup k r0)
    ∧ (dcontains "loss" r0 = false →
      dlookup "loss" (get_eval_ops r0 loss preds)
        = some (MetricVal.streamingMean loss))
    ∧ ((kvs.map Prod.fst).Nodup →
      ∀ k v, (k, v) ∈ kvs → dcontains k r0 = false → k ≠ "loss" →
        dlookup k (get_eval_ops r0 loss (some (Predictions.dict kvs)))
          = some (MetricVal.streamingMean v))
    ∧ (dcontains "predictions" r0 = false →
      dlookup "predictions" (get_eval_ops r0 loss (some (Predictions.single p)))
        = some (MetricVal.streamingMean p))
    ∧ (∀ k, dcontains k r0 = false → k ≠ "loss" → (∀ kv ∈ kvs, kv.1 ≠ k) →
        dlookup k (get_eval_ops r0 loss (some (Predictions.dict kvs))) = none) := by
  refine ⟨?_, ?_, ?_, ?_, ?_⟩
  · intro k hk
    cases preds with
    | none =>
      simp only [get_eval_ops]
      exact dlookup_maybe_add_of_contains loss hk
    | some pr =>
      cases pr with
      | dict kvs2 =>
        simp only [get_eval_ops]
        rw [fold_maybe_add_lookup_of_contains _ _ (dcontains_maybe_add_mono _ _ hk)]
        exact dlookup_maybe_add_of_contains loss hk
      | single p2 =>
        simp only [get_eval_ops]
        rw [dlookup_maybe_add_of_contains p2 (dcontains_maybe_add_mono _ _ hk)]
        exact dlookup_maybe_add_of_contains loss hk
  · intro hl
    have hself := dlookup_maybe_add_self_new loss hl
    have hcont := dcontains_maybe_add_self r0 "loss" loss
    cases preds with
    | none =>
      simp only [get_eval_ops]
      exact hself
    | some pr =>
      cases pr with
      | dict kvs2 =>
        simp only [get_eval_ops]
        rw [fold_maybe_add_lookup_of_contains _ _ hcont]
        exact hself
      | single p2 =>
        simp only [get_eval_ops]
        rw [dlookup_maybe_add_other _ p2 (by decide)]
        exact hself
  · intro hnd k v hmem hk hkl
    simp only [get_eval_ops]
    refine fold_maybe_add_lookup_mem kvs _ hnd hmem ?_
    rw [dcontains_maybe_add_other r0 loss hkl]
    exact hk
  · intro hp
    simp only [get_eval_ops]
    refine dlookup_maybe_add_self_new p ?_
    rw [dcontains_maybe_add_other r0 loss (by decide)]
    exact hp
  · intro k hk hkl hni
    simp only [get_eval_ops]
    refine fold_maybe_add_lookup_absent kvs _ ?_ hni
    rw [dcontains_maybe_add_other r0 loss hkl]
    exact hk

/-- C7 counterexample: with no user metrics and a prediction named `loss`,
the key `loss` is absent from the user-supplied metrics result, yet the
entry stored under it is the streaming mean of the loss tensor and the
prediction's streaming mean is skipped — contradicting the claim that an
addition is skipped only when the key already exists in the user-supplied
result. -/
theorem c7_eval_metrics_cex :
    dcontains "loss" ([] : MetricsDict Tensor) = false
    ∧ dlookup "loss" (get_eval_ops [] ⟨some [], 0⟩
        (some (Predictions.dict [("loss", ⟨some [], 1⟩)])))
      = some (MetricVal.streamingMean (⟨some [], 0⟩ : Tensor))
    ∧ dlookup "loss" (get_eval_ops [] ⟨some [], 0⟩
        (some (Predictions.dict [("loss", ⟨some [], 1⟩)])))
      ≠ some (MetricVal.streamingMean (⟨some [], 1⟩ : Tensor)) := by
  exact ⟨rfl, rfl, by decide⟩

/-- C7 witness: the kept user metric, the loss mean, a named prediction
mean, the single-prediction mean and a free key left absent, all at
concrete inputs. -/
theorem c7_eval_metrics_witness :
    dcontains "acc" ([("acc", MetricVal.userMetric 7)] : MetricsDict Tensor) = true
    ∧ dlookup "acc" (get_eval_ops [("acc", MetricVal.userMetric 7)] ⟨some [], 0⟩
        (some (Predictions.dict [("out1", ⟨some [some 2], 1⟩)])))
      = dlookup "acc" ([("acc", MetricVal.userMetric 7)] : MetricsDict Tensor)
    ∧ dlookup "loss" (get_eval_ops [("acc", MetricVal.userMetric 7)] ⟨some [], 0⟩
        (some (Predictions.dict [("out1", ⟨some [some 2], 1⟩)])))
      = some (MetricVal.streamingMean ⟨some [], 0⟩)
    ∧ dlookup "out1" (get_eval_ops [("acc", MetricVal.userMetric 7)] ⟨some [], 0⟩
        (some (Predictions.dict [("out1", ⟨some [some 2], 1⟩)])))
      = some (MetricVal.streamingMean ⟨some [some 2], 1⟩)
    ∧ dlookup "predictions" (get_eval_ops [("acc", MetricVal.userMetric 7)]
        ⟨some [], 0⟩ (some (Predictions.single ⟨some [], 2⟩)))
      = some (MetricVal.streamingMean ⟨some [], 2⟩)
    ∧ dlookup "out2" (get_eval_ops [("acc", MetricVal.userMetric 7)] ⟨some [], 0⟩
        (some (Predictions.dict [("out1", ⟨some [some 2], 1⟩)]))) = none := by
  have h := c7_eval_metrics [("acc", MetricVal.userMetric 7)] ⟨some [], 0⟩
    ⟨some [], 2⟩ [("out1", ⟨some [some 2], 1⟩)]
    (some (Predictions.dict [("out1", ⟨some [some 2], 1⟩)]))
  exact ⟨by decide, h.1 "acc" (by decide), h.2.1 (by decide),
    h.2.2.1 (by decide) "out1" ⟨some [some 2], 1⟩ (by decide) (by decide)
      (by decide),
    h.2.2.2.1 (by decide),
    h.2.2.2.2 "out2" (by decide) (by decide) (by decide)⟩

/-- C8: streaming prediction terminates cleanly on input exhaustion — both
when the engine signals out-of-range and when the feed sequence simply
ends, the generator yields every unpacked batch and propagates no error to
the consumer. -/
theorem c8_streaming_end {V : Type} [Inhabited V] (rd : Bool)
    (bs : List (List (String × List V))) :
    infer_model_as_iterable rd (bs.map FeedEvent.batch ++ [FeedEvent.outOfRange])
      = ((bs.map (unpackBatch rd)).flatten, none)
    ∧ infer_model_as_iterable rd (bs.map FeedEvent.batch)
      = ((bs.map (unpackBatch rd)).flatten, none) := by
  induction bs with
  | nil => exact ⟨rfl, rfl⟩
  | cons b rest ih =>
    constructor
    · simp [infer_model_as_iterable, ih.1, List.flatten_cons]
    · simp [infer_model_as_iterable, ih.2, List.flatten_cons]

theorem pandas_dtype_any_iff {c : String × String} :
    (PANDAS_DTYPES.any fun kv => kv.1 == c.2) = true
      ↔ c.2 ∈ PANDAS_DTYPES.map Prod.fst := by
  simp [List.any_eq_true, beq_iff_eq, List.mem_map]

/-- C10: `extract_pandas_data` returns any non-DataFrame input unchanged;
a DataFrame whose every column dtype name lies in the `PANDAS_DTYPES` table
yields its values cast to float; and it raises `ValueError` exactly when
some column's dtype name lies outside the table. -/
theorem c10_extract_pandas {V : Type} (v : V)
    (cols : List (String × String)) (values : V) :
    extract_pandas_data (PandasData.other v)
      = Except.ok (ExtractedData.unchanged v)
    ∧ ((∀ c ∈ cols, c.2 ∈ PANDAS_DTYPES.map Prod.fst) →
      extract_pandas_data (PandasData.dataFrame cols values)
        = Except.ok (ExtractedData.asFloat values))
    ∧ (isValueError (extract_pandas_data (PandasData.dataFrame cols values)) = true
        ↔ ∃ c ∈ cols, c.2 ∉ PANDAS_DTYPES.map Prod.fst) := by
  refine ⟨rfl, ?_, ?_⟩
  · intro hall
    have hfil : cols.filter
        (fun c => !(PANDAS_DTYPES.any fun kv => kv.1 == c.2)) = [] := by
      rw [List.filter_eq_nil_iff]
      intro c hc
      have hany := pandas_dtype_any_iff.mpr (hall c hc)
      simp [hany]
    simp [extract_pandas_data, hfil]
  · simp only [extract_pandas_data]
    cases hfil : cols.filter
        (fun c => !(PANDAS_DTYPES.any fun kv => kv.1 == c.2)) with
    | nil =>
      constructor
      · intro hcontra
        simp [isValueError] at hcontra
      · rintro ⟨c, hc, hbad⟩
        have hnot := List.filter_eq_nil_iff.mp hfil c hc
        cases hb : (PANDAS_DTYPES.any fun kv => kv.1 == c.2) with
        | true => exact (hbad (pandas_dtype_any_iff.mp hb)).elim
        | false => exact (hnot (by simp [hb])).elim
    | cons c0 rest =>
      constructor
      · intro _
        have hc0 : c0 ∈ cols.filter
            (fun c => !(PANDAS_DTYPES.any fun kv => kv.1 == c.2)) := by
          rw [hfil]; exact List.mem_cons_self c0 rest
        have hmem := List.mem_of_mem_filter hc0
        have hprop := List.of_mem_filter hc0
        refine ⟨c0, hmem, fun hin => ?_⟩
        have hany := pandas_dtype_any_iff.mpr hin
        simp [hany] at hprop
      · intro _
        rfl

/-- C10 witness: a non-DataFrame value passes through, an all-numeric
DataFrame is cast to float, and a DataFrame with an `object` column raises
`ValueError`. -/
theorem c10_extract_pandas_witness :
    extract_pandas_data (PandasData.other (5 : Nat))
      = Except.ok (ExtractedData.unchanged 5)
    ∧ extract_pandas_data
        (PandasData.dataFrame [("a", "int8"), ("b", "float64")] (5 : Nat))
      = Except.ok (ExtractedData.asFloat 5)
    ∧ isValueError
        (extract_pandas_data (PandasData.dataFrame [("a", "object")] (5 : Nat)))
      = true := by
  have h1 := c10_extract_pandas (5 : Nat) [("a", "int8"), ("b", "float64")]
    (5 : Nat)
  have h2 := c10_extract_pandas (5 : Nat) [("a", "object")] (5 : Nat)
  exact ⟨h1.1, h1.2.1 (by decide),
    h2.2.2.mpr ⟨("a", "object"), by decide, by decide⟩⟩

end TFLearn
